import Mathlib

/-!
# Remodance — verification of the attendance core

Shallow embedding of the Remodance virtual-attendance application
(frontend `src/App.vue`, plus the spec-described attendance core:
ActivitySampler, EventQueue, DeliveryWorker) and proofs of the
behavioural claims about it.

The frontend functions (`toggleAttendance`, `sendAttendanceEvent`,
`initApp` handlers, `saveSettings`) are translated directly from
`src/App.vue`.  The Tauri backend `invoke` calls are external effects;
each is modelled by an explicit `Except String _` result parameter so
that both the success and the failure path of the calling code are
captured.  Component state held in Vue refs becomes an explicit
`UIState` record, and `console.error` output becomes an explicit log.
-/

namespace Remodance

/-- Attendance event type, `"check-in" | "check-out"` in the source. -/
inductive EventType where
  | checkIn
  | checkOut
deriving DecidableEq, Repr

/-- The settings form of `App.vue` (`const settings = reactive({...})`). -/
structure AppSettings where
  apiEndpoint : String
  username : String
  deviceName : String
  idleTimeoutMins : Nat
  autoMode : Bool
  developerMode : Bool
deriving DecidableEq, Repr

/-- The component state of `App.vue`: the refs `isCheckedIn`,
`isAutoMode`, `showSettings`, the `settings` form, and the console
error log produced by the `catch` blocks. -/
structure UIState where
  isCheckedIn : Bool
  isAutoMode : Bool
  showSettings : Bool
  settings : AppSettings
  consoleLog : List String
deriving DecidableEq, Repr

/-- The initial values of the refs in `App.vue` lines 8-22:
`isCheckedIn = ref(false)`, `isAutoMode = ref(true)`,
`showSettings = ref(false)`, and the defaults of the settings form. -/
def initialUIState : UIState :=
  { isCheckedIn := false
    isAutoMode := true
    showSettings := false
    settings :=
      { apiEndpoint := ""
        username := ""
        deviceName := ""
        idleTimeoutMins := 10
        autoMode := true
        developerMode := false }
    consoleLog := [] }

/-- `sendAttendanceEvent` (`App.vue` lines 34-40): wraps the backend
`invoke("send_attendance_event")` in `try/catch`; on error it logs
`"Failed to send attendance event:"` to the console and returns
normally.  The `invoke` outcome is the `invokeResult` parameter; the
result is `.ok log` when the function returns normally (carrying the
console output) and `.error` only if an exception escapes. -/
def sendAttendanceEvent (_eventType : EventType) (invokeResult : Except String Unit) :
    Except String (List String) :=
  match invokeResult with
  | Except.ok _ => Except.ok []
  | Except.error e => Except.ok ["Failed to send attendance event: " ++ e]

/-- `toggleAttendance` (`App.vue` lines 25-31): computes
`newStatus = !isCheckedIn`, assigns it to the ref, then awaits
`sendAttendanceEvent(newStatus ? "check-in" : "check-out")`.
Returns the updated component state and the event type sent. -/
def toggleAttendance (st : UIState) (invokeResult : Except String Unit) :
    UIState × EventType :=
  let newStatus := !st.isCheckedIn
  let st1 := { st with isCheckedIn := newStatus }
  let evType := if newStatus then EventType.checkIn else EventType.checkOut
  match sendAttendanceEvent evType invokeResult with
  | Except.ok log => ({ st1 with consoleLog := st1.consoleLog ++ log }, evType)
  | Except.error _ => (st1, evType)

/-- The `attendance_changed` listener of `initApp` (`App.vue` lines
49-51): `isCheckedIn.value = event.payload === "check-in"`. -/
def onAttendanceChanged (st : UIState) (payload : String) : UIState :=
  { st with isCheckedIn := payload == "check-in" }

/-- The startup status query of `initApp` (`App.vue` lines 71-72):
`isCheckedIn.value = status === "checked-in"` where `status` is the
result of `invoke("get_attendance_status")`. -/
def applyAttendanceStatus (st : UIState) (status : String) : UIState :=
  { st with isCheckedIn := status == "checked-in" }

/-- `saveSettings` (`App.vue` lines 89-110): invokes
`save_settings`; on success sets `isAutoMode` from the form and closes
the settings modal; on failure logs `"Failed to save settings:"`. -/
def saveSettings (st : UIState) (invokeResult : Except String Unit) : UIState :=
  match invokeResult with
  | Except.ok _ => { st with isAutoMode := st.settings.autoMode, showSettings := false }
  | Except.error e => { st with consoleLog := st.consoleLog ++ ["Failed to save settings: " ++ e] }

/-!
## ActivitySampler

The Rust backend implementing the sampler is not part of the frontend
sources, so it is modelled from the spec (§4.1).
-/

/-- Classification of an activity sample. -/
inductive Classification where
  | Idle
  | Active
deriving DecidableEq, Repr

/-- Activity transitions, emitted only on an edge change. -/
inductive ActivityTransition where
  | becameIdle
  | becameActive
deriving DecidableEq, Repr

/-- Modelled from the spec: classification of one sample (§4.1,
missing Rust sampler): "a sample with idle-duration ≥ idleTimeoutMins
→ Idle; otherwise Active".  Durations are in minutes. -/
def classify (idleTimeoutMins idleDuration : Nat) : Classification :=
  if idleTimeoutMins ≤ idleDuration then Classification.Idle else Classification.Active

/-- The transition corresponding to a new classification: entering
`Idle` is `Became-Idle`, entering `Active` is `Became-Active`. -/
def dirOf : Classification → ActivityTransition
  | Classification.Idle => ActivityTransition.becameIdle
  | Classification.Active => ActivityTransition.becameActive

/-- Modelled from the spec: one invocation of
`sample() -> Optional<ActivityTransition>` (§4.1, missing Rust
sampler).  The sampler holds `lastClassification`; it classifies the
current idle-duration and "emits a transition only when classification
changes from the previous sample (edge-triggered)".  Returns the new
`lastClassification` and the optional emitted transition. -/
def samplerStep (idleTimeoutMins : Nat) (lastClassification : Classification)
    (idleDuration : Nat) : Classification × Option ActivityTransition :=
  let c := classify idleTimeoutMins idleDuration
  (c, if c = lastClassification then none else some (dirOf c))

/-- Modelled from the spec: the sampler run over a sequence of sampled
idle-durations (§4.1, missing Rust sampler), one timer tick per list
element; yields the per-tick emission (`none` when the tick emitted no
transition). -/
def samplerRun (idleTimeoutMins : Nat) (lastClassification : Classification) :
    List Nat → List (Option ActivityTransition)
  | [] => []
  | d :: ds =>
    (samplerStep idleTimeoutMins lastClassification d).2 ::
      samplerRun idleTimeoutMins (samplerStep idleTimeoutMins lastClassification d).1 ds

/-!
## EventQueue and DeliveryWorker

The Rust backend implementing the durable queue and the delivery
worker is not part of the frontend sources, so both are modelled from
the spec (§4.3, §4.4, §3 invariants).
-/

/-- Delivery status of a queue entry (§3, QueueEntry):
`{Pending, InFlight, Delivered, Failed-Permanent}`. -/
inductive QStatus where
  | Pending
  | InFlight
  | Delivered
  | FailedPermanent
deriving DecidableEq, Repr

/-- A terminal status: `Delivered` or `Failed-Permanent` (§3: "a
terminal state (Delivered or Failed-Permanent-and-skipped)"). -/
def isTerminal : QStatus → Bool
  | QStatus.Delivered => true
  | QStatus.FailedPermanent => true
  | _ => false

/-- Modelled from the spec: a QueueEntry (§3, missing Rust queue):
wraps an attendance event (represented by its `EventType`) plus
delivery metadata `attemptCount`, `nextEligibleAt`, `status`; `id` is
the monotonic sequence number of the wrapped event. -/
structure QueueEntry where
  id : Nat
  event : EventType
  attemptCount : Nat
  nextEligibleAt : Nat
  status : QStatus
deriving DecidableEq, Repr

/-- Modelled from the spec: `enqueue(event)` (§4.3, missing Rust
queue): appends durably with `status=Pending, attemptCount=0`;
`nextId` is the monotonic sequence number assigned at creation, and a
fresh entry is immediately eligible. -/
def enqueue (q : List QueueEntry) (nextId : Nat) (ev : EventType) : List QueueEntry :=
  q ++ [{ id := nextId, event := ev, attemptCount := 0, nextEligibleAt := 0,
          status := QStatus.Pending }]

/-- Reset one entry after a crash: an entry left `InFlight` becomes
`Pending`; every other entry is unchanged. -/
def resetInFlight (e : QueueEntry) : QueueEntry :=
  if e.status = QStatus.InFlight then { e with status := QStatus.Pending } else e

/-- Modelled from the spec: `loadOnStartup()` (§4.3, missing Rust
queue): "on process start, any entry left InFlight from a prior crash
is reset to Pending"; no entry is lost and no entry's relative order
is altered. -/
def loadOnStartup (q : List QueueEntry) : List QueueEntry :=
  q.map resetInFlight

/-- Update the entry with the given id in place (ids are unique in a
well-formed queue); every other entry is unchanged. -/
def updateEntry (i : Nat) (f : QueueEntry → QueueEntry) (q : List QueueEntry) :
    List QueueEntry :=
  q.map fun e => if e.id = i then f e else e

/-- Modelled from the spec: `markInFlight(id)` (§4.3, missing Rust
queue). -/
def markInFlight (i : Nat) (q : List QueueEntry) : List QueueEntry :=
  updateEntry i (fun e => { e with status := QStatus.InFlight }) q

/-- Modelled from the spec: `markDelivered(id)` (§4.3, missing Rust
queue).  The spec removes the entry from durable storage; the model
keeps it with the terminal status `Delivered` so that a run's history
stays visible to the ordering statements — a delivered entry is never
eligible again either way. -/
def markDelivered (i : Nat) (q : List QueueEntry) : List QueueEntry :=
  updateEntry i (fun e => { e with status := QStatus.Delivered }) q

/-- Modelled from the spec: `markFailed(id, nextEligibleAttemptAt)`
(§4.3, missing Rust queue): "increments attemptCount, updates backoff
timestamp, reverts status to Pending unless attemptCount exceeds
ceiling → Failed-Permanent". -/
def markFailed (ceiling i next : Nat) (q : List QueueEntry) : List QueueEntry :=
  updateEntry i
    (fun e =>
      let nc := e.attemptCount + 1
      { e with
        attemptCount := nc
        nextEligibleAt := next
        status := if ceiling < nc then QStatus.FailedPermanent else QStatus.Pending })
    q

/-- Modelled from the spec: exponential backoff delay (§4.4, missing
Rust worker): "base delay × 2^attemptCount, capped". -/
def backoffDelay (base cap attempts : Nat) : Nat :=
  min (base * 2 ^ attempts) cap

/-- Modelled from the spec: `peekNext()` (§4.3, missing Rust queue),
read together with the ordering invariant of §3: the head of the queue
is the lowest-id entry that has not reached a terminal state; it is
returned only when it is `Pending` and `nextEligibleAttemptAt ≤ now`
(a lower-id entry still backing off blocks the queue rather than being
overtaken, since "an entry is never sent before all lower-id entries
have reached a terminal state"). -/
def peekNext (now : Nat) (q : List QueueEntry) : Option QueueEntry :=
  match q.find? (fun e => !isTerminal e.status) with
  | none => none
  | some e =>
    if e.status = QStatus.Pending ∧ e.nextEligibleAt ≤ now then some e else none

/-- Outcome of one HTTP delivery attempt, as classified by §4.4/§6:
2xx success; 5xx / timeout / network failure / non-auth 4xx retryable;
401/403 authentication failure. -/
inductive Outcome where
  | success
  | retryableFail
  | authFail
deriving DecidableEq, Repr

/-- State of the delivery worker: the durable queue, whether the queue
is paused (set by an authentication failure), and whether an
operator-visible alert has been raised. -/
structure WorkerState where
  queue : List QueueEntry
  paused : Bool
  alert : Bool
deriving DecidableEq, Repr

/-- Modelled from the spec: one cycle of the DeliveryWorker drain loop
(§4.4, missing Rust worker): if the queue is paused, nothing happens;
otherwise `peekNext()`; if none, idle-wait; otherwise `markInFlight`,
attempt delivery (the attempt's outcome is the `outcome` parameter),
then on success `markDelivered`, on retryable failure `markFailed`
with exponential backoff, and on a 401/403 the entry is reverted to
`Pending` uncharged, the whole queue is paused and an operator alert
is raised.  Returns the new state and the id sent, if any. -/
def workerStep (ceiling base cap now : Nat) (outcome : Outcome) (st : WorkerState) :
    WorkerState × Option Nat :=
  if st.paused then (st, none)
  else
    match peekNext now st.queue with
    | none => (st, none)
    | some e =>
      let q1 := markInFlight e.id st.queue
      match outcome with
      | Outcome.success => ({ st with queue := markDelivered e.id q1 }, some e.id)
      | Outcome.retryableFail =>
        ({ st with
            queue := markFailed ceiling e.id
              (now + backoffDelay base cap (e.attemptCount + 1)) q1 },
          some e.id)
      | Outcome.authFail =>
        ({ st with
            queue := updateEntry e.id (fun x => { x with status := QStatus.Pending }) q1
            paused := true
            alert := true },
          some e.id)

/-- An action of the delivery system: a worker tick (at a wall-clock
time, with the attempt outcome the endpoint would give), or the
operator's manual resume after fixing credentials (§4.4). -/
inductive WAction where
  | tick (now : Nat) (outcome : Outcome)
  | resume
deriving DecidableEq, Repr

/-- Whether an action is a worker tick (and not an operator resume). -/
def isTick : WAction → Bool
  | WAction.tick _ _ => true
  | WAction.resume => false

/-- The operator's manual resume: unpauses the queue and clears the
alert; the queue contents are untouched. -/
def resumeWorker (st : WorkerState) : WorkerState :=
  { st with paused := false, alert := false }

/-- Apply one action to the worker state, yielding the new state and
the id sent during that action, if any. -/
def applyAction (ceiling base cap : Nat) (a : WAction) (st : WorkerState) :
    WorkerState × Option Nat :=
  match a with
  | WAction.tick now outcome => workerStep ceiling base cap now outcome st
  | WAction.resume => (resumeWorker st, none)

/-- Run the delivery system over a list of actions, returning the
final state. -/
def runWorker (ceiling base cap : Nat) : List WAction → WorkerState → WorkerState
  | [], st => st
  | a :: acts, st => runWorker ceiling base cap acts (applyAction ceiling base cap a st).1

/-- The ids sent over a run, in order (one list element per attempted
send; retries of one entry appear once per attempt). -/
def sendsOf (ceiling base cap : Nat) : List WAction → WorkerState → List Nat
  | [], _ => []
  | a :: acts, st =>
    match applyAction ceiling base cap a st with
    | (st1, some i) => i :: sendsOf ceiling base cap acts st1
    | (st1, none) => sendsOf ceiling base cap acts st1

/-- A well-formed queue: entry ids are strictly increasing from front
to back (§4.3: "durable ordered queue keyed by monotonically
increasing id"). -/
abbrev SortedQ (q : List QueueEntry) : Prop :=
  q.Pairwise fun a b => a.id < b.id

/-!
## Claims about the frontend (`src/App.vue`)
-/

/-- C1: a manual toggle always moves the attendance state to the
opposite state and emits exactly one attendance event whose type
matches the new state: `check-in` when the new state is checked-in and
`check-out` when it is checked-out, whatever the backend call's
outcome. -/
theorem toggleAttendance_flips_and_emits (st : UIState) (r : Except String Unit) :
    (toggleAttendance st r).1.isCheckedIn = !st.isCheckedIn ∧
      (toggleAttendance st r).2 =
        (if !st.isCheckedIn then EventType.checkIn else EventType.checkOut) ∧
      ((toggleAttendance st r).2 = EventType.checkIn ↔
        (toggleAttendance st r).1.isCheckedIn = true) := by
  cases r with
  | ok u => cases h : st.isCheckedIn <;> simp [toggleAttendance, sendAttendanceEvent, h]
  | error e => cases h : st.isCheckedIn <;> simp [toggleAttendance, sendAttendanceEvent, h]

/-- C2 counterexample: starting checked-out, when the backend send
fails the in-memory attendance state still changes to checked-in, and
the failure is swallowed by `sendAttendanceEvent` (which returns
normally) rather than surfaced — so a failed recording does not leave
the state unchanged, refuting the claim as stated. -/
theorem toggleAttendance_state_changes_on_failed_send :
    ¬ ((toggleAttendance initialUIState (Except.error "network unreachable")).1.isCheckedIn =
        initialUIState.isCheckedIn) ∧
      (sendAttendanceEvent EventType.checkIn
          (Except.error "network unreachable")).isOk = true := by
  constructor
  · decide
  · rfl

/-- C2 amended: if recording the attendance event for a manual toggle
fails, the in-memory attendance state still transitions to the new
(opposite) state — the toggle sets the state before awaiting the send
— and the failure is only appended to the console log, never surfaced
to the toggle's caller; the in-memory state can diverge from the
recorded state. -/
theorem toggleAttendance_optimistic_update_on_failure (st : UIState) (e : String) :
    (toggleAttendance st (Except.error e)).1.isCheckedIn = !st.isCheckedIn ∧
      (toggleAttendance st (Except.error e)).1.consoleLog =
        st.consoleLog ++ ["Failed to send attendance event: " ++ e] := by
  cases h : st.isCheckedIn <;> simp [toggleAttendance, sendAttendanceEvent, h]

/-- C3: `sendAttendanceEvent` catches every error of the underlying
`invoke` call and returns normally — a failed send produces a console
log entry and an `ok` result, never a propagated exception. -/
theorem sendAttendanceEvent_never_throws (ev : EventType) (r : Except String Unit) :
    (sendAttendanceEvent ev r).isOk = true ∧
      ∀ e : String, sendAttendanceEvent ev (Except.error e) =
        Except.ok ["Failed to send attendance event: " ++ e] := by
  refine ⟨?_, fun e => rfl⟩
  cases r <;> rfl

/-- C4: at startup the attendance state is restored from the persisted
status: it becomes checked-in exactly when the status string equals
`"checked-in"`, and is checked-out otherwise; before any status is
applied (first run) the initial state is checked-out. -/
theorem attendance_status_restore_iff (st : UIState) :
    (∀ status : String,
        (applyAttendanceStatus st status).isCheckedIn = true ↔ status = "checked-in") ∧
      initialUIState.isCheckedIn = false := by
  refine ⟨fun status => ?_, rfl⟩
  simp [applyAttendanceStatus]

/-!
## Claims about the ActivitySampler (spec-modelled)
-/

/-- `dirOf` is injective: distinct classifications yield distinct
transition directions. -/
theorem dirOf_inj (a b : Classification) (h : dirOf a = dirOf b) : a = b := by
  cases a <;> cases b <;> simp [dirOf] at h ⊢

/-- A sampler run produces one emission slot per sample. -/
theorem samplerRun_length (t : Nat) (init : Classification) (ds : List Nat) :
    (samplerRun t init ds).length = ds.length := by
  induction ds generalizing init with
  | nil => rfl
  | cons d ds ih => simp [samplerRun, ih]

/-- The emission at a successor position depends only on the previous
sample's classification and the current sample: the sampler's
`lastClassification` state before sample `i+1` is the classification
of sample `i`. -/
theorem samplerRun_getElem_succ (t : Nat) (init : Classification) (ds : List Nat)
    (i di dsi : Nat) (h1 : ds[i]? = some di) (h2 : ds[i + 1]? = some dsi) :
    (samplerRun t init ds)[i + 1]? =
      some (if classify t dsi = classify t di then none
            else some (dirOf (classify t dsi))) := by
  induction ds generalizing init i with
  | nil => simp at h1
  | cons d ds ih =>
    cases i with
    | zero =>
      simp at h1
      subst h1
      cases ds with
      | nil => simp at h2
      | cons d2 rest =>
        simp at h2
        subst h2
        simp [samplerRun, samplerStep]
    | succ j =>
      simp only [List.getElem?_cons_succ] at h1 h2
      simpa [samplerRun] using ih (samplerStep t init d).1 j h1 h2

/-- The transitions actually emitted by a run alternate in direction,
starting opposite to the initial classification's direction. -/
theorem samplerRun_chain (t : Nat) (init : Classification) (ds : List Nat) :
    List.Chain (fun a b => a ≠ b) (dirOf init) ((samplerRun t init ds).filterMap id) := by
  induction ds generalizing init with
  | nil => exact List.Chain.nil
  | cons d ds ih =>
    by_cases h : classify t d = init
    · simpa [samplerRun, samplerStep, h] using ih init
    · have hrun : (samplerRun t init (d :: ds)).filterMap id =
          dirOf (classify t d) :: (samplerRun t (classify t d) ds).filterMap id := by
        simp [samplerRun, samplerStep, h]
      rw [hrun]
      exact List.Chain.cons (fun hc => h (dirOf_inj _ _ hc).symm) (ih (classify t d))

/-- C5: a sample is classified `Idle` iff its idle-duration is at
least `idleTimeoutMins`; the sampler emits a transition at a sample
iff its classification differs from the immediately preceding sample's
classification, the emitted direction matching the new classification;
and the emitted transitions never repeat the same direction twice in a
row. -/
theorem sampler_edge_triggered (t : Nat) (init : Classification) (ds : List Nat)
    (i di dsi : Nat) (h1 : ds[i]? = some di) (h2 : ds[i + 1]? = some dsi) :
    (∀ d, classify t d = Classification.Idle ↔ t ≤ d) ∧
      (samplerRun t init ds)[i + 1]? =
        some (if classify t dsi = classify t di then none
              else some (dirOf (classify t dsi))) ∧
      List.Chain (fun a b => a ≠ b) (dirOf init)
        ((samplerRun t init ds).filterMap id) := by
  refine ⟨fun d => ?_, samplerRun_getElem_succ t init ds i di dsi h1 h2,
    samplerRun_chain t init ds⟩
  unfold classify
  split
  · simpa
  · simp [*]

/-- C5 witness: the spec's scenario durations `[11, 15, 9, 0]` with a
10-minute timeout, checked at the second sample. -/
theorem sampler_edge_triggered_witness :
    (([11, 15, 9, 0] : List Nat)[0]? = some 11) ∧
      (([11, 15, 9, 0] : List Nat)[1]? = some 15) ∧
      ((∀ d, classify 10 d = Classification.Idle ↔ 10 ≤ d) ∧
        (samplerRun 10 Classification.Active [11, 15, 9, 0])[0 + 1]? =
          some (if classify 10 15 = classify 10 11 then none
                else some (dirOf (classify 10 15))) ∧
        List.Chain (fun a b => a ≠ b) (dirOf Classification.Active)
          ((samplerRun 10 Classification.Active [11, 15, 9, 0]).filterMap id)) :=
  ⟨rfl, rfl,
    sampler_edge_triggered 10 Classification.Active [11, 15, 9, 0] 0 11 15 rfl rfl⟩

/-!
## Claims about the EventQueue (spec-modelled)
-/

/-- C7: enqueueing an event and then simulating a process restart via
`loadOnStartup` loses no entry and alters no entry's position: the
queue keeps its length, every entry keeps its id and wrapped event at
its position (`InFlight` statuses are reset to `Pending`, all others
kept), and the newly enqueued event sits unchanged at the same (last)
position with status `Pending`. -/
theorem enqueue_loadOnStartup_round_trip (q : List QueueEntry) (nextId : Nat)
    (ev : EventType) (i : Nat) (x : QueueEntry)
    (hx : (enqueue q nextId ev)[i]? = some x) :
    (loadOnStartup (enqueue q nextId ev)).length = (enqueue q nextId ev).length ∧
      (loadOnStartup (enqueue q nextId ev))[i]? = some (resetInFlight x) ∧
      (resetInFlight x).id = x.id ∧
      (resetInFlight x).event = x.event ∧
      (x.status = QStatus.InFlight → (resetInFlight x).status = QStatus.Pending) ∧
      (x.status ≠ QStatus.InFlight → (resetInFlight x).status = x.status) ∧
      (loadOnStartup (enqueue q nextId ev))[q.length]? =
        some { id := nextId, event := ev, attemptCount := 0, nextEligibleAt := 0,
               status := QStatus.Pending } := by
  refine ⟨List.length_map .., ?_, ?_, ?_, ?_, ?_, ?_⟩
  · simp [loadOnStartup, List.getElem?_map, hx]
  · unfold resetInFlight
    split <;> rfl
  · unfold resetInFlight
    split <;> rfl
  · intro h
    simp [resetInFlight, h]
  · intro h
    simp [resetInFlight, h]
  · rw [loadOnStartup, List.getElem?_map, enqueue, List.getElem?_concat_length]
    rfl

/-- C7 witness: round trip of a single enqueued check-in event on an
empty queue. -/
theorem enqueue_loadOnStartup_round_trip_witness :
    ((enqueue [] 1 EventType.checkIn)[0]? =
        some { id := 1, event := EventType.checkIn, attemptCount := 0,
               nextEligibleAt := 0, status := QStatus.Pending }) ∧
      ((loadOnStartup (enqueue [] 1 EventType.checkIn)).length =
          (enqueue [] 1 EventType.checkIn).length ∧
        (loadOnStartup (enqueue [] 1 EventType.checkIn))[0]? =
          some (resetInFlight
            { id := 1, event := EventType.checkIn, attemptCount := 0,
              nextEligibleAt := 0, status := QStatus.Pending }) ∧
        (resetInFlight
            { id := 1, event := EventType.checkIn, attemptCount := 0,
              nextEligibleAt := 0, status := QStatus.Pending }).id = 1 ∧
        (resetInFlight
            { id := 1, event := EventType.checkIn, attemptCount := 0,
              nextEligibleAt := 0, status := QStatus.Pending }).event =
          EventType.checkIn ∧
        (QStatus.Pending = QStatus.InFlight →
          (resetInFlight
              { id := 1, event := EventType.checkIn, attemptCount := 0,
                nextEligibleAt := 0, status := QStatus.Pending }).status =
            QStatus.Pending) ∧
        (QStatus.Pending ≠ QStatus.InFlight →
          (resetInFlight
              { id := 1, event := EventType.checkIn, attemptCount := 0,
                nextEligibleAt := 0, status := QStatus.Pending }).status =
            QStatus.Pending) ∧
        (loadOnStartup (enqueue [] 1 EventType.checkIn))[0]? =
          some { id := 1, event := EventType.checkIn, attemptCount := 0,
                 nextEligibleAt := 0, status := QStatus.Pending }) :=
  ⟨rfl, enqueue_loadOnStartup_round_trip [] 1 EventType.checkIn 0
    { id := 1, event := EventType.checkIn, attemptCount := 0,
      nextEligibleAt := 0, status := QStatus.Pending } rfl⟩

/-!
## Claims about the DeliveryWorker (spec-modelled)
-/

/-- Eliminating a successful `peekNext`: the returned entry is the
first non-terminal entry of the queue, it is `Pending`, and it is
eligible now. -/
theorem peekNext_some_elim (now : Nat) (q : List QueueEntry) (e : QueueEntry)
    (h : peekNext now q = some e) :
    q.find? (fun x => !isTerminal x.status) = some e ∧
      e.status = QStatus.Pending ∧ e.nextEligibleAt ≤ now := by
  unfold peekNext at h
  split at h
  · cases h
  · next e0 hf =>
    split at h
    · next hc =>
      injection h with h
      subst h
      exact ⟨hf, hc⟩
    · cases h

/-- In a sorted queue, every entry whose id is below the first
non-terminal entry's id is terminal. -/
theorem find?_lower_terminal (q : List QueueEntry) (hs : SortedQ q) (e : QueueEntry)
    (hf : q.find? (fun x => !isTerminal x.status) = some e) :
    ∀ x ∈ q, x.id < e.id → isTerminal x.status = true := by
  induction q with
  | nil => cases hf
  | cons a q ih =>
    obtain ⟨ha, hq⟩ := List.pairwise_cons.mp hs
    by_cases hpa : isTerminal a.status = true
    · have hf' : q.find? (fun x => !isTerminal x.status) = some e := by
        rwa [List.find?_cons_of_neg q (by simp [hpa])] at hf
      intro x hx hlt
      rcases List.mem_cons.mp hx with rfl | hx'
      · exact hpa
      · exact ih hq hf' x hx' hlt
    · have he : e = a := by
        rw [List.find?_cons_of_pos q (by simp [hpa])] at hf
        exact (Option.some.inj hf).symm
      subst he
      intro x hx hlt
      rcases List.mem_cons.mp hx with rfl | hx'
      · omega
      · exact absurd hlt (by have := ha x hx'; omega)

/-- In a sorted queue, ids are unique: two member entries with the
same id are equal. -/
theorem sorted_unique_id (q : List QueueEntry) (hs : SortedQ q) (e : QueueEntry)
    (he : e ∈ q) : ∀ x ∈ q, x.id = e.id → x = e := by
  induction q with
  | nil => cases he
  | cons a q ih =>
    obtain ⟨ha, hq⟩ := List.pairwise_cons.mp hs
    intro x hx hxe
    rcases List.mem_cons.mp he with rfl | he'
    · rcases List.mem_cons.mp hx with rfl | hx'
      · rfl
      · exact absurd hxe (by have := ha x hx'; omega)
    · rcases List.mem_cons.mp hx with rfl | hx'
      · exact absurd hxe (by have := ha e he'; omega)
      · exact ih hq he' x hx' hxe

/-- Every entry sent by `peekNext` comes after all lower-id entries
have reached a terminal state. -/
theorem peek_lower_terminal (now : Nat) (q : List QueueEntry) (hs : SortedQ q)
    (e : QueueEntry) (h : peekNext now q = some e) :
    ∀ x ∈ q, x.id < e.id → isTerminal x.status = true :=
  find?_lower_terminal q hs e (peekNext_some_elim now q e h).1

/-- `updateEntry` with an id-preserving update keeps the queue
sorted. -/
theorem updateEntry_sorted (i : Nat) (f : QueueEntry → QueueEntry)
    (hf : ∀ x, (f x).id = x.id) (q : List QueueEntry) (hs : SortedQ q) :
    SortedQ (updateEntry i f q) := by
  have hg : ∀ x : QueueEntry, (if x.id = i then f x else x).id = x.id := by
    intro x
    split <;> simp [hf]
  unfold updateEntry SortedQ
  rw [List.pairwise_map]
  exact hs.imp fun hab => by rw [hg, hg]; exact hab

/-- `markInFlight` keeps the queue sorted. -/
theorem markInFlight_sorted (i : Nat) (q : List QueueEntry) (hs : SortedQ q) :
    SortedQ (markInFlight i q) :=
  updateEntry_sorted i (fun x => { x with status := QStatus.InFlight }) (fun _ => rfl) q hs

/-- `markDelivered` keeps the queue sorted. -/
theorem markDelivered_sorted (i : Nat) (q : List QueueEntry) (hs : SortedQ q) :
    SortedQ (markDelivered i q) :=
  updateEntry_sorted i (fun x => { x with status := QStatus.Delivered }) (fun _ => rfl) q hs

/-- `markFailed` keeps the queue sorted. -/
theorem markFailed_sorted (ceiling i next : Nat) (q : List QueueEntry) (hs : SortedQ q) :
    SortedQ (markFailed ceiling i next q) :=
  updateEntry_sorted i
    (fun e =>
      let nc := e.attemptCount + 1
      { e with
        attemptCount := nc
        nextEligibleAt := next
        status := if ceiling < nc then QStatus.FailedPermanent else QStatus.Pending })
    (fun _ => rfl) q hs

/-- One worker cycle keeps the queue sorted: every queue mutation it
performs preserves every entry's id and position. -/
theorem workerStep_sorted (c b cap now : Nat) (o : Outcome) (st : WorkerState)
    (hs : SortedQ st.queue) : SortedQ (workerStep c b cap now o st).1.queue := by
  unfold workerStep
  split
  · exact hs
  · split
    · exact hs
    · next e hpe =>
      cases o with
      | success =>
        exact markDelivered_sorted e.id _ (markInFlight_sorted e.id st.queue hs)
      | retryableFail =>
        exact markFailed_sorted c e.id _ _ (markInFlight_sorted e.id st.queue hs)
      | authFail =>
        exact updateEntry_sorted e.id (fun x => { x with status := QStatus.Pending })
          (fun _ => rfl) _ (markInFlight_sorted e.id st.queue hs)

/-- Any run of the delivery system keeps the queue sorted. -/
theorem runWorker_sorted (c b cap : Nat) (acts : List WAction) (st : WorkerState)
    (hs : SortedQ st.queue) : SortedQ (runWorker c b cap acts st).queue := by
  induction acts generalizing st with
  | nil => exact hs
  | cons a acts ih =>
    cases a with
    | tick now o => exact ih _ (workerStep_sorted c b cap now o st hs)
    | resume => exact ih _ hs

/-- If a worker cycle sent id `n`, the queue was not paused and
`peekNext` returned an entry with id `n`. -/
theorem workerStep_sent (c b cap now : Nat) (o : Outcome) (st st' : WorkerState)
    (n : Nat) (h : workerStep c b cap now o st = (st', some n)) :
    st.paused = false ∧ ∃ e, peekNext now st.queue = some e ∧ e.id = n := by
  unfold workerStep at h
  split at h
  · next hp => cases h
  · next hp =>
    cases hpe : peekNext now st.queue with
    | none => rw [hpe] at h; cases h
    | some e =>
      rw [hpe] at h
      refine ⟨by simpa using hp, e, rfl, ?_⟩
      cases o <;>
        (simp only [Prod.mk.injEq] at h; exact Option.some.inj h.2)

/-- C6: over every queue history — any run of the delivery system from
a well-formed (id-sorted) state — whenever a worker cycle sends the
entry with id `n`, every queue entry with a lower id has already
reached a terminal state (`Delivered` or `Failed-Permanent`), so
entries are delivered in ascending id order and nothing is sent ahead
of an unfinished lower-id entry. -/
theorem queue_delivery_respects_id_order (c b cap : Nat) (init : WorkerState)
    (acts : List WAction) (now : Nat) (o : Outcome) (st' : WorkerState) (n : Nat)
    (hsorted : SortedQ init.queue)
    (hstep : workerStep c b cap now o (runWorker c b cap acts init) = (st', some n)) :
    ∀ x ∈ (runWorker c b cap acts init).queue, x.id < n →
      isTerminal x.status = true := by
  obtain ⟨-, e, hpe, rfl⟩ := workerStep_sent c b cap now o _ st' _ hstep
  exact peek_lower_terminal now _ (runWorker_sorted c b cap acts init hsorted) e hpe

/-- C6 witness: a two-entry queue whose first entry is already
delivered; the very next cycle sends id 2, and the lone lower-id entry
is terminal. -/
theorem queue_delivery_respects_id_order_witness :
    SortedQ
        ({ queue :=
            [{ id := 1, event := EventType.checkIn, attemptCount := 0,
               nextEligibleAt := 0, status := QStatus.Delivered },
             { id := 2, event := EventType.checkOut, attemptCount := 0,
               nextEligibleAt := 0, status := QStatus.Pending }],
           paused := false, alert := false } : WorkerState).queue ∧
      workerStep 5 1 60 0 Outcome.success
          (runWorker 5 1 60 []
            { queue :=
                [{ id := 1, event := EventType.checkIn, attemptCount := 0,
                   nextEligibleAt := 0, status := QStatus.Delivered },
                 { id := 2, event := EventType.checkOut, attemptCount := 0,
                   nextEligibleAt := 0, status := QStatus.Pending }],
              paused := false, alert := false }) =
        ({ queue :=
            [{ id := 1, event := EventType.checkIn, attemptCount := 0,
               nextEligibleAt := 0, status := QStatus.Delivered },
             { id := 2, event := EventType.checkOut, attemptCount := 0,
               nextEligibleAt := 0, status := QStatus.Delivered }],
           paused := false, alert := false }, some 2) ∧
      (∀ x ∈ (runWorker 5 1 60 []
            { queue :=
                [{ id := 1, event := EventType.checkIn, attemptCount := 0,
                   nextEligibleAt := 0, status := QStatus.Delivered },
                 { id := 2, event := EventType.checkOut, attemptCount := 0,
                   nextEligibleAt := 0, status := QStatus.Pending }],
              paused := false, alert := false }).queue,
        x.id < 2 → isTerminal x.status = true) :=
  ⟨by decide, by decide,
    queue_delivery_respects_id_order 5 1 60
      { queue :=
          [{ id := 1, event := EventType.checkIn, attemptCount := 0,
             nextEligibleAt := 0, status := QStatus.Delivered },
           { id := 2, event := EventType.checkOut, attemptCount := 0,
             nextEligibleAt := 0, status := QStatus.Pending }],
        paused := false, alert := false }
      [] 0 Outcome.success
      { queue :=
          [{ id := 1, event := EventType.checkIn, attemptCount := 0,
             nextEligibleAt := 0, status := QStatus.Delivered },
           { id := 2, event := EventType.checkOut, attemptCount := 0,
             nextEligibleAt := 0, status := QStatus.Delivered }],
        paused := false, alert := false }
      2 (by decide) (by decide)⟩

/-- A paused worker does nothing on a tick: no send, no state
change. -/
theorem workerStep_paused (c b cap now : Nat) (o : Outcome) (st : WorkerState)
    (hp : st.paused = true) : workerStep c b cap now o st = (st, none) := by
  unfold workerStep
  rw [hp]
  rfl

/-- While the queue is paused, any tick-only run (no operator resume)
is a no-op: the state is unchanged and nothing is ever sent. -/
theorem runWorker_paused (c b cap : Nat) (acts : List WAction) (st : WorkerState)
    (hp : st.paused = true) (hticks : acts.all isTick = true) :
    runWorker c b cap acts st = st ∧ sendsOf c b cap acts st = [] := by
  induction acts with
  | nil => exact ⟨rfl, rfl⟩
  | cons a acts ih =>
    cases a with
    | tick now o =>
      have hticks' : acts.all isTick = true := by
        simp only [List.all_cons, Bool.and_eq_true] at hticks
        exact hticks.2
      have hstep : applyAction c b cap (WAction.tick now o) st = (st, none) :=
        workerStep_paused c b cap now o st hp
      constructor
      · simp only [runWorker, hstep]
        exact (ih hticks').1
      · simp only [sendsOf, hstep]
        exact (ih hticks').2
    | resume => simp [List.all_cons, isTick] at hticks

/-- Reverting the just-marked-in-flight entry to `Pending` restores
the queue exactly, provided every entry carrying that id was `Pending`
to begin with. -/
theorem authFail_queue_unchanged (q : List QueueEntry) (i : Nat)
    (hq : ∀ x ∈ q, x.id = i → x.status = QStatus.Pending) :
    updateEntry i (fun x => { x with status := QStatus.Pending })
      (markInFlight i q) = q := by
  unfold markInFlight updateEntry
  rw [List.map_map]
  have hpt : ∀ x ∈ q,
      ((fun e => if e.id = i then { e with status := QStatus.Pending } else e) ∘
        fun e => if e.id = i then { e with status := QStatus.InFlight } else e) x = x := by
    intro x hx
    by_cases hxi : x.id = i
    · have hxs := hq x hx hxi
      cases x
      simp_all [Function.comp]
    · simp [Function.comp, hxi]
  rw [List.map_congr_left hpt]
  simp

/-- `peekNext` does not depend on the clock beyond the head entry's
eligibility: if it returns an entry now, it returns the same entry at
any time at which that entry is eligible. -/
theorem peekNext_mono_now (now now2 : Nat) (q : List QueueEntry) (e : QueueEntry)
    (h : peekNext now q = some e) (h2 : e.nextEligibleAt ≤ now2) :
    peekNext now2 q = some e := by
  obtain ⟨hf, hps, -⟩ := peekNext_some_elim now q e h
  unfold peekNext
  rw [hf]
  simp [hps, h2]

/-- An unpaused worker whose `peekNext` returns an entry sends exactly
that entry on its next cycle, whatever the outcome. -/
theorem workerStep_sends_peek (c b cap now : Nat) (o : Outcome) (st : WorkerState)
    (hp : st.paused = false) (e : QueueEntry) (hpe : peekNext now st.queue = some e) :
    (workerStep c b cap now o st).2 = some e.id := by
  cases o <;> simp [workerStep, hp, hpe]

/-- C8: when the endpoint answers 401/403 for the entry with id `n`,
the whole queue pauses at that entry: the worker state is paused with
an operator alert raised, the durable queue is left exactly as it was
(entry `n` keeps status `Pending` and its attempt count — it is
neither skipped nor charged — and every higher-id entry is untouched),
any tick-only continuation performs no send at all (higher-id entries
are never attempted), and once the operator resumes, the next cycle at
any time at which entry `n` is eligible sends entry `n` again, in
order. -/
theorem auth_failure_pauses_queue (c b cap now : Nat) (st0 st1 : WorkerState) (n : Nat)
    (hsorted : SortedQ st0.queue)
    (hstep : workerStep c b cap now Outcome.authFail st0 = (st1, some n)) :
    st1.paused = true ∧ st1.alert = true ∧ st1.queue = st0.queue ∧
      (∀ acts, acts.all isTick = true →
        runWorker c b cap acts st1 = st1 ∧ sendsOf c b cap acts st1 = []) ∧
      (∃ e, peekNext now st0.queue = some e ∧ e.id = n ∧
        e.status = QStatus.Pending ∧
        ∀ now2 o2, e.nextEligibleAt ≤ now2 →
          (workerStep c b cap now2 o2 (resumeWorker st1)).2 = some n) := by
  obtain ⟨hp0, e, hpe, hen⟩ := workerStep_sent c b cap now Outcome.authFail st0 st1 n hstep
  obtain ⟨hf, hps, hel⟩ := peekNext_some_elim now st0.queue e hpe
  have he_mem : e ∈ st0.queue := List.mem_of_find?_eq_some hf
  have hq : ∀ x ∈ st0.queue, x.id = e.id → x.status = QStatus.Pending := by
    intro x hx hxi
    rw [sorted_unique_id st0.queue hsorted e he_mem x hx hxi]
    exact hps
  have hstep2 : workerStep c b cap now Outcome.authFail st0 =
      ({ st0 with
          queue := updateEntry e.id (fun x => { x with status := QStatus.Pending })
            (markInFlight e.id st0.queue)
          paused := true
          alert := true }, some e.id) := by
    unfold workerStep
    rw [hp0, hpe]
    rfl
  rw [hstep2] at hstep
  have hst1 : st1 = { st0 with
      queue := updateEntry e.id (fun x => { x with status := QStatus.Pending })
        (markInFlight e.id st0.queue)
      paused := true
      alert := true } :=
    (congrArg Prod.fst hstep).symm
  have hqueq : st1.queue = st0.queue := by
    rw [hst1]
    exact authFail_queue_unchanged st0.queue e.id hq
  refine ⟨by rw [hst1], by rw [hst1], hqueq, ?_, e, hpe, hen, hps, ?_⟩
  · intro acts hticks
    exact runWorker_paused c b cap acts st1 (by rw [hst1]) hticks
  · intro now2 o2 h2
    have hpe2 : peekNext now2 (resumeWorker st1).queue = some e := by
      show peekNext now2 st1.queue = some e
      rw [hqueq]
      exact peekNext_mono_now now now2 st0.queue e hpe h2
    have hsend : (workerStep c b cap now2 o2 (resumeWorker st1)).2 = some e.id :=
      workerStep_sends_peek c b cap now2 o2 (resumeWorker st1) rfl e hpe2
    rw [hsend, hen]

/-- C8 witness: the spec's scenario — the endpoint answers 401 on the
entry with id 7 while id 8 waits behind it. -/
theorem auth_failure_pauses_queue_witness :
    SortedQ
        ({ queue :=
            [{ id := 7, event := EventType.checkIn, attemptCount := 2,
               nextEligibleAt := 0, status := QStatus.Pending },
             { id := 8, event := EventType.checkOut, attemptCount := 0,
               nextEligibleAt := 0, status := QStatus.Pending }],
           paused := false, alert := false } : WorkerState).queue ∧
      workerStep 5 1 60 0 Outcome.authFail
          { queue :=
              [{ id := 7, event := EventType.checkIn, attemptCount := 2,
                 nextEligibleAt := 0, status := QStatus.Pending },
               { id := 8, event := EventType.checkOut, attemptCount := 0,
                 nextEligibleAt := 0, status := QStatus.Pending }],
            paused := false, alert := false } =
        ({ queue :=
            [{ id := 7, event := EventType.checkIn, attemptCount := 2,
               nextEligibleAt := 0, status := QStatus.Pending },
             { id := 8, event := EventType.checkOut, attemptCount := 0,
               nextEligibleAt := 0, status := QStatus.Pending }],
           paused := true, alert := true }, some 7) ∧
      (({ queue :=
            [{ id := 7, event := EventType.checkIn, attemptCount := 2,
               nextEligibleAt := 0, status := QStatus.Pending },
             { id := 8, event := EventType.checkOut, attemptCount := 0,
               nextEligibleAt := 0, status := QStatus.Pending }],
          paused := true, alert := true } : WorkerState).paused = true ∧
        ({ queue :=
            [{ id := 7, event := EventType.checkIn, attemptCount := 2,
               nextEligibleAt := 0, status := QStatus.Pending },
             { id := 8, event := EventType.checkOut, attemptCount := 0,
               nextEligibleAt := 0, status := QStatus.Pending }],
           paused := true, alert := true } : WorkerState).alert = true ∧
        ({ queue :=
            [{ id := 7, event := EventType.checkIn, attemptCount := 2,
               nextEligibleAt := 0, status := QStatus.Pending },
             { id := 8, event := EventType.checkOut, attemptCount := 0,
               nextEligibleAt := 0, status := QStatus.Pending }],
           paused := true, alert := true } : WorkerState).queue =
          ({ queue :=
              [{ id := 7, event := EventType.checkIn, attemptCount := 2,
                 nextEligibleAt := 0, status := QStatus.Pending },
               { id := 8, event := EventType.checkOut, attemptCount := 0,
                 nextEligibleAt := 0, status := QStatus.Pending }],
             paused := false, alert := false } : WorkerState).queue ∧
        (∀ acts, acts.all isTick = true →
          runWorker 5 1 60 acts
              { queue :=
                  [{ id := 7, event := EventType.checkIn, attemptCount := 2,
                     nextEligibleAt := 0, status := QStatus.Pending },
                   { id := 8, event := EventType.checkOut, attemptCount := 0,
                     nextEligibleAt := 0, status := QStatus.Pending }],
                paused := true, alert := true } =
              { queue :=
                  [{ id := 7, event := EventType.checkIn, attemptCount := 2,
                     nextEligibleAt := 0, status := QStatus.Pending },
                   { id := 8, event := EventType.checkOut, attemptCount := 0,
                     nextEligibleAt := 0, status := QStatus.Pending }],
                paused := true, alert := true } ∧
            sendsOf 5 1 60 acts
              { queue :=
                  [{ id := 7, event := EventType.checkIn, attemptCount := 2,
                     nextEligibleAt := 0, status := QStatus.Pending },
                   { id := 8, event := EventType.checkOut, attemptCount := 0,
                     nextEligibleAt := 0, status := QStatus.Pending }],
                paused := true, alert := true } = []) ∧
        (∃ e, peekNext 0
              ({ queue :=
                  [{ id := 7, event := EventType.checkIn, attemptCount := 2,
                     nextEligibleAt := 0, status := QStatus.Pending },
                   { id := 8, event := EventType.checkOut, attemptCount := 0,
                     nextEligibleAt := 0, status := QStatus.Pending }],
                 paused := false, alert := false } : WorkerState).queue = some e ∧
          e.id = 7 ∧ e.status = QStatus.Pending ∧
          ∀ now2 o2, e.nextEligibleAt ≤ now2 →
            (workerStep 5 1 60 now2 o2
                (resumeWorker
                  { queue :=
                      [{ id := 7, event := EventType.checkIn, attemptCount := 2,
                         nextEligibleAt := 0, status := QStatus.Pending },
                       { id := 8, event := EventType.checkOut, attemptCount := 0,
                         nextEligibleAt := 0, status := QStatus.Pending }],
                    paused := true, alert := true })).2 = some 7)) :=
  ⟨by decide, by decide,
    auth_failure_pauses_queue 5 1 60 0
      { queue :=
          [{ id := 7, event := EventType.checkIn, attemptCount := 2,
             nextEligibleAt := 0, status := QStatus.Pending },
           { id := 8, event := EventType.checkOut, attemptCount := 0,
             nextEligibleAt := 0, status := QStatus.Pending }],
        paused := false, alert := false }
      { queue :=
          [{ id := 7, event := EventType.checkIn, attemptCount := 2,
             nextEligibleAt := 0, status := QStatus.Pending },
           { id := 8, event := EventType.checkOut, attemptCount := 0,
             nextEligibleAt := 0, status := QStatus.Pending }],
        paused := true, alert := true }
      7 (by decide) (by decide)⟩

/-- C9: the `attendance_changed` listener sets the state to checked-in
iff the payload is exactly `"check-in"` (any other payload yields
checked-out), while the startup status query tests against the
distinct string `"checked-in"`: the string `"checked-in"` makes the
status query report checked-in but makes the event listener report
checked-out, so the two channels use different state encodings. -/
theorem event_channel_and_status_query_encodings_differ (st : UIState) :
    (∀ payload : String,
        (onAttendanceChanged st payload).isCheckedIn = true ↔ payload = "check-in") ∧
      (applyAttendanceStatus st "checked-in").isCheckedIn = true ∧
      (onAttendanceChanged st "checked-in").isCheckedIn = false ∧
      "check-in" ≠ "checked-in" := by
  refine ⟨fun payload => ?_, ?_, ?_, ?_⟩
  · simp [onAttendanceChanged]
  · rfl
  · rfl
  · decide

/-- C10: `saveSettings` never changes the attendance state:
`isCheckedIn` is identical before and after a settings save, whether
the backend call succeeds or fails; on success only the auto-mode
indicator (and modal visibility) change, taking the saved form's
value. -/
theorem saveSettings_preserves_attendance_state (st : UIState) (r : Except String Unit) :
    (saveSettings st r).isCheckedIn = st.isCheckedIn ∧
      (saveSettings st r).settings = st.settings ∧
      (saveSettings st (Except.ok ())).isAutoMode = st.settings.autoMode := by
  cases r <;> exact ⟨rfl, rfl, rfl⟩

end Remodance
